import Mathlib

/-!
Verification of the pymochow SDK specification against a shallow embedding
of its source code.  Python dictionaries are modelled as association lists
with update-in-place-or-append semantics (matching insertion-ordered
`dict` assignment); JSON values are a small inductive; Python exceptions
are an explicit error type threaded through `Except`.
-/

set_option autoImplicit false

namespace Pymochow

/-- JSON values as decoded by `orjson.loads` / built by `to_dict` methods.
Objects are insertion-ordered association lists, matching Python dicts.
Numbers are modelled as rationals. -/
inductive Json where
  | null
  | bool (b : Bool)
  | num (q : ℚ)
  | str (s : String)
  | arr (xs : List Json)
  | obj (entries : List (String × Json))

/-- Python `d[k]` lookup on an insertion-ordered dict (first match). -/
def dictLookup {α : Type} (d : List (String × α)) (k : String) : Option α :=
  match d with
  | [] => none
  | (k', v) :: t => if k' = k then some v else dictLookup t k

/-- Python `d[k] = v`: overwrite in place when the key exists, otherwise
append at the end (insertion order). -/
def dictSet {α : Type} (d : List (String × α)) (k : String) (v : α) :
    List (String × α) :=
  match d with
  | [] => [(k, v)]
  | (k', w) :: t => if k' = k then (k, v) :: t else (k', w) :: dictSet t k v

/-- Python `d1.update(d2)`: set every entry of `d2` into `d1` in order. -/
def dictUpdate {α : Type} (d1 d2 : List (String × α)) : List (String × α) :=
  d2.foldl (fun acc kv => dictSet acc kv.1 kv.2) d1

/-- Python `k in d`. -/
def dictHasKey {α : Type} (d : List (String × α)) (k : String) : Bool :=
  (dictLookup d k).isSome

/-- The keys of a dict, in order. -/
def dictKeys {α : Type} (d : List (String × α)) : List String :=
  d.map Prod.fst

/-- The dict has no duplicate keys (true of every real Python dict). -/
def NodupKeys {α : Type} (d : List (String × α)) : Prop :=
  (dictKeys d).Nodup

/-- Number of entries carrying key `k`. -/
def countKey {α : Type} (d : List (String × α)) (k : String) : Nat :=
  (d.filter (fun kv => kv.1 = k)).length

theorem dictLookup_dictSet {α : Type} (d : List (String × α)) (k k' : String)
    (v : α) :
    dictLookup (dictSet d k v) k' = if k' = k then some v else dictLookup d k' := by
  induction d with
  | nil =>
    by_cases h : k' = k
    · subst h
      simp [dictSet, dictLookup]
    · simp [dictSet, dictLookup, h, Ne.symm h]
  | cons hd t ih =>
    obtain ⟨a, b⟩ := hd
    by_cases hak : a = k
    · subst hak
      by_cases h : k' = a
      · subst h
        simp [dictSet, dictLookup]
      · simp [dictSet, dictLookup, h, Ne.symm h]
    · by_cases h : k' = a
      · subst h
        simp [dictSet, dictLookup, hak, Ne.symm hak]
      · simp [dictSet, dictLookup, hak, h, Ne.symm h, ih]

theorem dictKeys_dictSet_of_mem {α : Type} (d : List (String × α)) (k : String)
    (v : α) (h : k ∈ dictKeys d) : dictKeys (dictSet d k v) = dictKeys d := by
  induction d with
  | nil => simp [dictKeys] at h
  | cons hd t ih =>
    obtain ⟨a, b⟩ := hd
    by_cases hak : a = k
    · simp [dictSet, hak, dictKeys]
    · have h' : k ∈ dictKeys t := by
        rcases (List.mem_cons).1 h with h0 | h0
        · exact absurd h0.symm hak
        · exact h0
      rw [dictSet, if_neg hak]
      show a :: dictKeys (dictSet t k v) = a :: dictKeys t
      rw [ih h']

theorem dictKeys_dictSet_of_not_mem {α : Type} (d : List (String × α))
    (k : String) (v : α) (h : k ∉ dictKeys d) :
    dictKeys (dictSet d k v) = dictKeys d ++ [k] := by
  induction d with
  | nil => simp [dictSet, dictKeys]
  | cons hd t ih =>
    obtain ⟨a, b⟩ := hd
    have hka : ¬a = k := by
      intro he
      exact h (by simp [dictKeys, he])
    have h' : k ∉ dictKeys t := fun hm => h (List.mem_cons_of_mem a hm)
    rw [dictSet, if_neg hka]
    show a :: dictKeys (dictSet t k v) = (a :: dictKeys t) ++ [k]
    rw [ih h']
    rfl

theorem nodupKeys_dictSet {α : Type} (d : List (String × α)) (k : String)
    (v : α) (h : NodupKeys d) : NodupKeys (dictSet d k v) := by
  by_cases hm : k ∈ dictKeys d
  · rw [NodupKeys, dictKeys_dictSet_of_mem d k v hm]
    exact h
  · rw [NodupKeys, dictKeys_dictSet_of_not_mem d k v hm]
    simpa [List.nodup_append] using ⟨h, hm⟩

theorem nodupKeys_dictUpdate {α : Type} (d1 d2 : List (String × α))
    (h : NodupKeys d1) : NodupKeys (dictUpdate d1 d2) := by
  induction d2 generalizing d1 with
  | nil => exact h
  | cons hd t ih => exact ih _ (nodupKeys_dictSet _ _ _ h)

theorem dictLookup_eq_none_of_not_mem {α : Type} (d : List (String × α))
    (k : String) (h : k ∉ dictKeys d) : dictLookup d k = none := by
  induction d with
  | nil => rfl
  | cons hd t ih =>
    obtain ⟨a, b⟩ := hd
    have hka : ¬a = k := fun he => h (by simp [dictKeys, he])
    have h' : k ∉ dictKeys t := fun hm => h (List.mem_cons_of_mem a hm)
    rw [dictLookup, if_neg hka, ih h']

theorem countKey_eq_one_of_lookup {α : Type} (d : List (String × α))
    (k : String) (h : NodupKeys d) (hl : (dictLookup d k).isSome) :
    countKey d k = 1 := by
  induction d with
  | nil => simp [dictLookup] at hl
  | cons hd t ih =>
    obtain ⟨a, b⟩ := hd
    rw [NodupKeys, dictKeys] at h
    simp only [List.map_cons, List.nodup_cons] at h
    by_cases hak : a = k
    · subst hak
      have hfil : t.filter (fun kv => kv.1 = a) = [] := by
        rw [List.filter_eq_nil_iff]
        intro kv hkv hdec
        apply h.1
        have hfst : kv.1 = a := by simpa using hdec
        exact hfst ▸ List.mem_map_of_mem Prod.fst hkv
      simp [countKey, List.filter, hfil]
    · rw [dictLookup, if_neg hak] at hl
      have := ih h.2 hl
      simpa [countKey, List.filter, hak] using this

/-- Lookup through a dict union: entries of `d2` win (requires `d2` to be a
real dict, i.e. no duplicate keys). -/
theorem dictLookup_dictUpdate {α : Type} (d1 d2 : List (String × α))
    (k : String) (h : NodupKeys d2) :
    dictLookup (dictUpdate d1 d2) k =
      match dictLookup d2 k with
      | some v => some v
      | none => dictLookup d1 k := by
  induction d2 generalizing d1 with
  | nil => simp [dictUpdate, dictLookup]
  | cons hd t ih =>
    obtain ⟨a, b⟩ := hd
    rw [NodupKeys, dictKeys] at h
    simp only [List.map_cons, List.nodup_cons] at h
    have step : dictUpdate d1 ((a, b) :: t) = dictUpdate (dictSet d1 a b) t := rfl
    rw [step, ih _ h.2]
    by_cases hak : a = k
    · subst hak
      have hnone : dictLookup t a = none := dictLookup_eq_none_of_not_mem t a h.1
      simp [dictLookup, hnone, dictLookup_dictSet]
    · rw [dictLookup, if_neg hak]
      cases hlt : dictLookup t k with
      | some v => rfl
      | none => rw [dictLookup_dictSet, if_neg (fun he => hak he.symm)]

/-! ### Python exceptions

One error type covering the exception classes the embedded code can raise
(`pymochow/exception.py` plus the built-in Python exceptions the code can
hit).  `serverError` carries the structured `ServerError` object. -/

/-- `pymochow.model.enum.ServerErrCode` (`enum.py`). -/
inductive ServerErrCode where
  | INTERNAL_ERROR | INVALID_PARAMETER
  | INVALID_HTTP_URL | INVALID_HTTP_HEADER | INVALID_HTTP_BODY
  | MISS_SSL_CERTIFICATES
  | USER_NOT_EXIST | USER_ALREADY_EXIST | ROLE_NOT_EXIST | ROLE_ALREADY_EXIST
  | AUTHENTICATION_FAILED | PERMISSION_DENIED
  | DB_NOT_EXIST | DB_ALREADY_EXIST | DB_TOO_MANY_TABLES | DB_NOT_EMPTY
  | INVALID_TABLE_SCHEMA | INVALID_PARTITION_PARAMETERS | TABLE_TOO_MANY_FIELDS
  | TABLE_TOO_MANY_FAMILIES | TABLE_TOO_MANY_PRIMARY_KEYS
  | TABLE_TOO_MANY_PARTITION_KEYS | TABLE_TOO_MANY_VECTOR_FIELDS
  | TABLE_TOO_MANY_INDEXES | DYNAMIC_SCHEMA_ERROR | TABLE_NOT_EXIST
  | TABLE_ALREADY_EXIST | INVALID_TABLE_STATE | TABLE_NOT_READY
  | ALIAS_NOT_EXIST | ALIAS_ALREADY_EXIST
  | FIELD_NOT_EXIST | FIELD_ALREADY_EXIST | VECTOR_FIELD_NOT_EXIST
  | INVALID_INDEX_SCHEMA | INDEX_NOT_EXIST | INDEX_ALREADY_EXIST
  | INDEX_DUPLICATED | INVALID_INDEX_STATE
  | PRIMARY_KEY_DUPLICATED | ROW_KEY_NOT_FOUND
  deriving DecidableEq

/-- The integer wire value of each `ServerErrCode` member (`enum.py`). -/
def ServerErrCode.value : ServerErrCode → Int
  | .INTERNAL_ERROR => 1 | .INVALID_PARAMETER => 2
  | .INVALID_HTTP_URL => 10 | .INVALID_HTTP_HEADER => 11
  | .INVALID_HTTP_BODY => 12 | .MISS_SSL_CERTIFICATES => 13
  | .USER_NOT_EXIST => 20 | .USER_ALREADY_EXIST => 21 | .ROLE_NOT_EXIST => 22
  | .ROLE_ALREADY_EXIST => 23 | .AUTHENTICATION_FAILED => 24
  | .PERMISSION_DENIED => 25
  | .DB_NOT_EXIST => 50 | .DB_ALREADY_EXIST => 51 | .DB_TOO_MANY_TABLES => 52
  | .DB_NOT_EMPTY => 53
  | .INVALID_TABLE_SCHEMA => 60 | .INVALID_PARTITION_PARAMETERS => 61
  | .TABLE_TOO_MANY_FIELDS => 62 | .TABLE_TOO_MANY_FAMILIES => 63
  | .TABLE_TOO_MANY_PRIMARY_KEYS => 64 | .TABLE_TOO_MANY_PARTITION_KEYS => 65
  | .TABLE_TOO_MANY_VECTOR_FIELDS => 66 | .TABLE_TOO_MANY_INDEXES => 67
  | .DYNAMIC_SCHEMA_ERROR => 68 | .TABLE_NOT_EXIST => 69
  | .TABLE_ALREADY_EXIST => 70 | .INVALID_TABLE_STATE => 71
  | .TABLE_NOT_READY => 72 | .ALIAS_NOT_EXIST => 73 | .ALIAS_ALREADY_EXIST => 74
  | .FIELD_NOT_EXIST => 80 | .FIELD_ALREADY_EXIST => 81
  | .VECTOR_FIELD_NOT_EXIST => 82
  | .INVALID_INDEX_SCHEMA => 90 | .INDEX_NOT_EXIST => 91
  | .INDEX_ALREADY_EXIST => 92 | .INDEX_DUPLICATED => 93
  | .INVALID_INDEX_STATE => 94
  | .PRIMARY_KEY_DUPLICATED => 100 | .ROW_KEY_NOT_FOUND => 101

/-- All members of `ServerErrCode`, for Python's by-value enum lookup. -/
def ServerErrCode.members : List ServerErrCode :=
  [.INTERNAL_ERROR, .INVALID_PARAMETER,
   .INVALID_HTTP_URL, .INVALID_HTTP_HEADER, .INVALID_HTTP_BODY,
   .MISS_SSL_CERTIFICATES,
   .USER_NOT_EXIST, .USER_ALREADY_EXIST, .ROLE_NOT_EXIST, .ROLE_ALREADY_EXIST,
   .AUTHENTICATION_FAILED, .PERMISSION_DENIED,
   .DB_NOT_EXIST, .DB_ALREADY_EXIST, .DB_TOO_MANY_TABLES, .DB_NOT_EMPTY,
   .INVALID_TABLE_SCHEMA, .INVALID_PARTITION_PARAMETERS, .TABLE_TOO_MANY_FIELDS,
   .TABLE_TOO_MANY_FAMILIES, .TABLE_TOO_MANY_PRIMARY_KEYS,
   .TABLE_TOO_MANY_PARTITION_KEYS, .TABLE_TOO_MANY_VECTOR_FIELDS,
   .TABLE_TOO_MANY_INDEXES, .DYNAMIC_SCHEMA_ERROR, .TABLE_NOT_EXIST,
   .TABLE_ALREADY_EXIST, .INVALID_TABLE_STATE, .TABLE_NOT_READY,
   .ALIAS_NOT_EXIST, .ALIAS_ALREADY_EXIST,
   .FIELD_NOT_EXIST, .FIELD_ALREADY_EXIST, .VECTOR_FIELD_NOT_EXIST,
   .INVALID_INDEX_SCHEMA, .INDEX_NOT_EXIST, .INDEX_ALREADY_EXIST,
   .INDEX_DUPLICATED, .INVALID_INDEX_STATE,
   .PRIMARY_KEY_DUPLICATED, .ROW_KEY_NOT_FOUND]

/-- Python `ServerErrCode(value)` lookup by value: `None`/non-integers and
integers outside the enum have no member.  A JSON number equal to a member's
integer value (e.g. `50.0`) matches, as in Python. -/
def ServerErrCode.fromValue (v : Option Json) : Option ServerErrCode :=
  match v with
  | some (.num q) => ServerErrCode.members.find? (fun c => (c.value : ℚ) = q)
  | _ => none

/-- The structured `ServerError` (`exception.py`): message, HTTP status,
enum code and request id. -/
structure ServerErrorS where
  message : Json
  status_code : Option Nat
  code : ServerErrCode
  request_id : Option String

/-- Python exceptions raised by the embedded code. -/
inductive PyErr where
  | keyError (k : String)
  | typeError
  | attributeError
  | indexError
  | valueError (msg : String)
  | clientError (msg : String)
  | serverError (e : ServerErrorS)

/-- `True` exactly on a raised `ClientError`. -/
def isClientError {α : Type} : Except PyErr α → Bool
  | .error (.clientError _) => true
  | _ => false

/-! ### Signer (`pymochow/auth/bce_v1_signer.py`, `bce_credentials.py`) -/

/-- Modelled from the spec: the `Authorization` header name from the
`http_headers` module (not under `src/`); §4.1 names the header
`Authorization`. -/
def AUTHORIZATION : String := "Authorization"

/-- Modelled from the spec: the `X-Appbuilder-Authorization` header name
from the `http_headers` module (not under `src/`); §4.1 names it. -/
def APPBUILDER_AUTHORIZATION : String := "X-Appbuilder-Authorization"

/-- The two credential variants (`bce_credentials.py`).  `BceCredentials`
holds account + api key; `AppBuilderCredentials` additionally holds the
appbuilder token.  Byte strings are modelled as `String`. -/
inductive Credentials where
  | bce (account apiKey : String)
  | appBuilder (account apiKey appbuilderToken : String)

/-- `bce_v1_signer.sign`: reassigns `headers = {}` and dispatches on the
credential variant; every other argument (method, path, headers, params,
timestamp, expiration, headers-to-sign) is ignored. -/
def sign (credentials : Credentials) (httpMethod path : String)
    (headers : List (String × String)) (params : List (String × String))
    (timestamp : Int) (expirationInSeconds : Int)
    (headersToSign : Option (List String)) : List (String × String) :=
  match credentials with
  | .bce account apiKey =>
    dictSet [] AUTHORIZATION
      ("Bearer account=" ++ account ++ "&api_key=" ++ apiKey)
  | .appBuilder account apiKey appbuilderToken =>
    dictSet
      (dictSet [] AUTHORIZATION
        ("Bearer account=" ++ account ++ "&api_key=" ++ apiKey))
      APPBUILDER_AUTHORIZATION ("Bearer " ++ appbuilderToken)

/-- C5: the signer is a pure function of the credentials alone: for simple
`BceCredentials` it yields exactly the header
`Authorization: Bearer account=<account>&api_key=<api_key>`; for
`AppBuilderCredentials` it yields that header plus
`X-Appbuilder-Authorization: Bearer <token>`.  No I/O occurs and the input
header map is not consulted (so never mutated). -/
theorem sign_bearer_headers (account apiKey token httpMethod path : String)
    (headers : List (String × String)) (params : List (String × String))
    (timestamp expiration : Int) (hts : Option (List String)) :
    sign (.bce account apiKey) httpMethod path headers params
        timestamp expiration hts
      = [(AUTHORIZATION, "Bearer account=" ++ account ++ "&api_key=" ++ apiKey)]
    ∧ sign (.appBuilder account apiKey token) httpMethod path headers params
        timestamp expiration hts
      = [(AUTHORIZATION, "Bearer account=" ++ account ++ "&api_key=" ++ apiKey),
         (APPBUILDER_AUTHORIZATION, "Bearer " ++ token)] := by
  refine ⟨rfl, ?_⟩
  simp [sign, dictSet, AUTHORIZATION, APPBUILDER_AUTHORIZATION]

/-- C9: signing is deterministic: the output depends only on the
credentials and the request data, and is even independent of the clock
reading (`timestamp`/`expiration`), so two invocations on the same
credentials + request with the same clock reading yield identical header
keys and values. -/
theorem sign_deterministic (c : Credentials) (m p : String)
    (h : List (String × String)) (q : List (String × String))
    (t1 t2 e1 e2 : Int) (s1 s2 : Option (List String)) :
    sign c m p h q t1 e1 s1 = sign c m p h q t2 e2 s2 := by
  cases c <;> rfl

/-! ### Configuration (`pymochow/configuration.py`) -/

/-- The attribute names set by `Configuration.__init__` (its `__dict__`). -/
inductive CField where
  | credentials | endpoint | protocol | connection_timeout_in_mills
  | send_buf_size | recv_buf_size | proxy_host | proxy_port
  | retry_policy | security_token | cname_enabled | backup_endpoint
  deriving DecidableEq

/-- A `Configuration` object's `__dict__`: each attribute holds a value or
Python `None`.  Attribute values are opaque (`α`). -/
def Configuration (α : Type) := CField → Option α

/-- The fixed iteration order of `other.__dict__` in
`merge_non_none_values` (every instance sets all twelve attributes). -/
def allCFields : List CField :=
  [.credentials, .endpoint, .protocol, .connection_timeout_in_mills,
   .send_buf_size, .recv_buf_size, .proxy_host, .proxy_port,
   .retry_policy, .security_token, .cname_enabled, .backup_endpoint]

/-- `self.__dict__[k] = v`. -/
def setCField {α : Type} (c : Configuration α) (f : CField) (v : α) :
    Configuration α :=
  fun g => if g = f then some v else c g

/-- `Configuration.merge_non_none_values`: for each attribute of `other`,
copy it into `self` when it is not `None`. -/
def Configuration.merge_non_none_values {α : Type}
    (self other : Configuration α) : Configuration α :=
  allCFields.foldl
    (fun acc f =>
      match other f with
      | some v => setCField acc f v
      | none => acc)
    self

theorem merge_foldl_pointwise {α : Type} (other : Configuration α)
    (L : List CField) (s : Configuration α) (f : CField) :
    (L.foldl
      (fun acc g =>
        match other g with
        | some v => setCField acc g v
        | none => acc)
      s) f
      = if f ∈ L ∧ (other f).isSome then other f else s f := by
  induction L generalizing s with
  | nil => simp
  | cons a t ih =>
    rw [List.foldl_cons, ih]
    by_cases hft : f ∈ t ∧ (other f).isSome
    · simp [hft, List.mem_cons.2 (Or.inr hft.1), hft.2]
    · by_cases hfa : f = a
      · subst hfa
        cases ho : other f with
        | some v => simp [hft, setCField, ho]
        | none => simp [hft, setCField, ho]
      · cases ho : other a with
        | some v => simp [hft, setCField, hfa, List.mem_cons, ho]
        | none => simp [hft, ho, List.mem_cons, hfa]

/-- C7: merging override `O` into `C` with `merge_non_none_values` yields
a configuration in which every attribute `O` sets to a non-`None` value
equals `O`'s value, and every other attribute keeps `C`'s original value;
in particular a `None` attribute of `O` never overwrites `C`. -/
theorem merge_non_none_values_pointwise {α : Type}
    (self other : Configuration α) (f : CField) :
    ((other f).isSome →
      (Configuration.merge_non_none_values self other) f = other f)
    ∧ (other f = none →
      (Configuration.merge_non_none_values self other) f = self f) := by
  have hmem : f ∈ allCFields := by cases f <;> simp [allCFields]
  constructor
  · intro hs
    rw [Configuration.merge_non_none_values, merge_foldl_pointwise]
    simp [hmem, hs]
  · intro hn
    rw [Configuration.merge_non_none_values, merge_foldl_pointwise]
    simp [hn]

/-- A concrete base configuration over `Nat` values (for the witness). -/
def cfgBaseW : Configuration Nat := fun _ => some 1

/-- A concrete override setting only `endpoint` (for the witness). -/
def cfgOverrideW : Configuration Nat := fun g =>
  if g = CField.endpoint then some 5 else none

/-- Witness for C7 at a concrete pair of configurations. -/
theorem merge_non_none_values_pointwise_witness :
    (Configuration.merge_non_none_values cfgBaseW cfgOverrideW) CField.endpoint
      = cfgOverrideW CField.endpoint
    ∧ (Configuration.merge_non_none_values cfgBaseW cfgOverrideW) CField.protocol
      = cfgBaseW CField.protocol :=
  ⟨(merge_non_none_values_pointwise cfgBaseW cfgOverrideW CField.endpoint).1 rfl,
   (merge_non_none_values_pointwise cfgBaseW cfgOverrideW CField.protocol).2 rfl⟩

/-! ### Copy-on-override (`Table._merge_config`, `MochowClient._merge_config`)

Python object identity is modelled by a heap: a list of `Configuration`
objects addressed by index.  `copy.copy` appends a fresh object with the
same attribute values; `merge_non_none_values` then mutates the fresh
object in place. -/

/-- `_merge_config` of `table.py` / `mochow_client.py`: with no per-call
config, return the stored object itself; otherwise shallow-copy the stored
object, merge the override into the copy, and return the copy's address. -/
def merge_config {α : Type} (heap : List (Configuration α)) (selfAddr : Nat)
    (config : Option (Configuration α)) : List (Configuration α) × Nat :=
  match config with
  | none => (heap, selfAddr)
  | some o =>
    let stored := heap.getD selfAddr (fun _ => none)
    let heap1 := heap ++ [stored]
    let heap2 :=
      heap1.set heap.length (Configuration.merge_non_none_values stored o)
    (heap2, heap.length)

/-- C8: per-call override never mutates the stored client-level
configuration: after `_merge_config` the object at the stored address is
unchanged; with `config = None` the stored object itself is returned and
the heap is untouched; with an override a fresh object (a new address,
holding the merge of the stored values with the override) is returned. -/
theorem merge_config_preserves_stored {α : Type}
    (heap : List (Configuration α)) (a : Nat)
    (cfg : Option (Configuration α)) (ha : a < heap.length) :
    ((merge_config heap a cfg).1.getD a (fun _ => none)
        = heap.getD a (fun _ => none))
    ∧ (cfg = none → merge_config heap a cfg = (heap, a))
    ∧ (∀ o, cfg = some o →
        (merge_config heap a cfg).2 = heap.length
        ∧ (merge_config heap a cfg).2 ≠ a
        ∧ (merge_config heap a cfg).1.getD (merge_config heap a cfg).2
              (fun _ => none)
          = Configuration.merge_non_none_values
              (heap.getD a (fun _ => none)) o) := by
  cases cfg with
  | none => exact ⟨rfl, fun _ => rfl, fun o h => Option.noConfusion h⟩
  | some o =>
    have hne : heap.length ≠ a := Nat.ne_of_gt ha
    have hlt1 : heap.length < (heap ++ [heap.getD a (fun _ => none)]).length := by
      simp
    refine ⟨?_, fun h => Option.noConfusion h, fun o' h => ?_⟩
    · show (((heap ++ [_]).set heap.length _).getD a _) = _
      rw [List.getD_eq_getElem?_getD, List.getD_eq_getElem?_getD,
        List.getElem?_set_ne hne, List.getElem?_append_left ha]
    · have ho : o = o' := Option.some.inj h
      subst ho
      refine ⟨rfl, Nat.ne_of_gt ha, ?_⟩
      show (((heap ++ [_]).set heap.length _).getD heap.length _) = _
      rw [List.getD_eq_getElem?_getD, List.getElem?_set_self hlt1]
      rfl

/-- Witness for C8 at a concrete one-object heap, exercising both the
override and the no-override path. -/
theorem merge_config_preserves_stored_witness :
    ((merge_config [cfgBaseW] 0 (some cfgOverrideW)).1.getD 0 (fun _ => none)
        = [cfgBaseW].getD 0 (fun _ => none))
    ∧ (merge_config [cfgBaseW] 0 (none : Option (Configuration Nat))
        = ([cfgBaseW], 0)) :=
  ⟨(merge_config_preserves_stored [cfgBaseW] 0 (some cfgOverrideW)
      (by decide)).1,
   (merge_config_preserves_stored [cfgBaseW] 0 none (by decide)).2.1 rfl⟩

/-! ### Retry loop (`HTTPClient._send_request`, `http_client.py` 195-267)

The `while True` body is modelled by the sequence of dispatch outcomes it
would observe: each attempt either produces a response (`Except.ok`) or
raises an error (`Except.error`).  The loop recurses exactly as the source:
on an error `e` at attempt `n`, `should_retry e n` decides whether another
attempt happens; on `false` the very exception `e` is re-raised (the
`HttpClientError` wrapping is commented out in the source). -/

/-- The retry loop's result over a prefix of dispatch outcomes (`none` when
the modelled outcome horizon is exhausted while still retrying). -/
def retryLoop {E R : Type} (shouldRetry : E → Nat → Bool) :
    List (Except E R) → Nat → Option (Except E R)
  | [], _ => none
  | o :: rest, n =>
    match o with
    | .ok r => some (.ok r)
    | .error e =>
      if shouldRetry e n then retryLoop shouldRetry rest (n + 1)
      else some (.error e)

/-- How many dispatch attempts the loop issues over the same outcomes. -/
def retryAttempts {E R : Type} (shouldRetry : E → Nat → Bool) :
    List (Except E R) → Nat → Nat
  | [], _ => 0
  | o :: rest, n =>
    match o with
    | .ok _ => 1
    | .error e =>
      if shouldRetry e n then 1 + retryAttempts shouldRetry rest (n + 1)
      else 1

theorem retryLoop_spec_aux {E R : Type} (sr : E → Nat → Bool) (es : List E)
    (e : E) (tail : List (Except E R)) (n : Nat)
    (h1 : ∀ i (h : i < es.length), sr (es.get ⟨i, h⟩) (n + i) = true)
    (h2 : sr e (n + es.length) = false) :
    retryLoop sr (es.map Except.error ++ .error e :: tail) n
        = some (.error e)
    ∧ retryAttempts sr (es.map Except.error ++ .error e :: tail) n
        = es.length + 1 := by
  induction es generalizing n with
  | nil =>
    have h2' : sr e n = false := by simpa using h2
    simp [retryLoop, retryAttempts, h2']
  | cons a t ih =>
    have ha : sr a n = true := by
      have := h1 0 (by simp)
      simpa using this
    have h1' : ∀ i (h : i < t.length), sr (t.get ⟨i, h⟩) ((n + 1) + i) = true := by
      intro i h
      have := h1 (i + 1) (by simpa using Nat.succ_lt_succ h)
      have harith : n + (i + 1) = (n + 1) + i := by omega
      simpa [harith] using this
    have h2' : sr e ((n + 1) + t.length) = false := by
      have harith : n + (a :: t).length = (n + 1) + t.length := by
        simp
        omega
      rw [← harith]
      exact h2
    have := ih (n + 1) h1' h2'
    refine ⟨?_, ?_⟩
    · simpa [retryLoop, ha] using this.1
    · simp [retryAttempts, ha, this.2]
      omega

/-- C4: in the transport's retry loop, if the policy approves retries for
the first `n` errors and rejects error `e` at attempt `n`, then the loop
raises exactly `e` (the last raw error, unwrapped) and issues exactly
`n + 1` dispatches — whatever further outcomes (`tail`) would have been
observed, so no further network dispatch occurs and the attempt count is
determined solely by the `should_retry` decisions. -/
theorem retry_propagates_last_error {E R : Type} (sr : E → Nat → Bool)
    (es : List E) (e : E) (tail : List (Except E R))
    (h1 : ∀ i (h : i < es.length), sr (es.get ⟨i, h⟩) i = true)
    (h2 : sr e es.length = false) :
    retryLoop sr (es.map Except.error ++ .error e :: tail) 0
        = some (.error e)
    ∧ retryAttempts sr (es.map Except.error ++ .error e :: tail) 0
        = es.length + 1 :=
  retryLoop_spec_aux sr es e tail 0 (by simpa using h1) (by simpa using h2)

/-- Witness for C4: two approved retries then a rejection at attempt 2. -/
theorem retry_propagates_last_error_witness :
    retryLoop (fun _ n => decide (n < 2))
        (([7, 8] : List Nat).map Except.error
          ++ .error 9 :: ([] : List (Except Nat Unit))) 0
      = some (.error 9)
    ∧ retryAttempts (fun _ n => decide (n < 2))
        (([7, 8] : List Nat).map Except.error
          ++ .error 9 :: ([] : List (Except Nat Unit))) 0
      = 3 :=
  retry_propagates_last_error (fun _ n => decide (n < 2)) [7, 8] 9 []
    (by
      intro i h
      have h' : i < 2 := by simpa using h
      interval_cases i <;> rfl)
    (by rfl)

/-! ### Error detector (`handler.parse_error`, `exception.ServerError`) -/

/-- `ServerError.__init__` (`exception.py` 55-69): stores the message,
status code and request id, and converts `code` through the
`ServerErrCode` enum — Python's `ServerErrCode(code)` raises `ValueError`
when `code` (including the default `None`) is not a member value. -/
def ServerError_init (message : Json) (status_code : Option Nat)
    (code : Option Json) (request_id : Option String) :
    Except PyErr ServerErrorS :=
  match ServerErrCode.fromValue code with
  | some c => .ok ⟨message, status_code, c, request_id⟩
  | none => .error (.valueError "code is not a valid ServerErrCode")

/-- `handler.parse_error` (`handler.py` 51-82).  The response body
(`http_response.text`) is modelled as `none` for an empty body or
`some j` for a body that decodes to the JSON value `j`;
`bce_request_id` is `response.metadata.bce_request_id`. -/
def parse_error (status_code : Nat) (body : Option Json) (reason : String)
    (bce_request_id : Option String) : Except PyErr Bool :=
  if status_code / 100 = 200 / 100 then .ok false
  else if status_code / 100 = 100 / 100 then
    .error (.clientError "Can not handle 1xx http status code")
  else
    match body with
    | some d =>
      match d with
      | .obj entries =>
        match dictLookup entries "msg" with
        | some msg =>
          match dictLookup entries "code" with
          | some code =>
            match ServerError_init msg none (some code) none with
            | .ok bse =>
              .error (.serverError { bse with status_code := some status_code })
            | .error err => .error err
          | none => .error (.keyError "code")
        | none => .error (.keyError "msg")
      | _ => .error .typeError
    | none =>
      match ServerError_init (.str reason) none none bce_request_id with
      | .ok bse =>
        .error (.serverError { bse with status_code := some status_code })
      | .error err => .error err

/-- C3 (evaluation of the code, including at the failing input): 2xx
returns without raising; 1xx raises a ClientError; non-2xx with a
`{msg, code}` JSON body raises the structured ServerError with the code
mapped into `ServerErrCode`; but non-2xx with an EMPTY body does not
produce the claimed reason/request-id ServerError — `ServerError.__init__`
evaluates `ServerErrCode(None)`, which raises `ValueError` instead. -/
theorem parse_error_behavior :
    parse_error 200 none "OK" none = .ok false
    ∧ parse_error 204 none "No Content" none = .ok false
    ∧ parse_error 100 none "Continue" none
        = .error (.clientError "Can not handle 1xx http status code")
    ∧ parse_error 500
        (some (.obj [("msg", .str "db not found"), ("code", .num 50)]))
        "Internal Server Error" none
        = .error (.serverError
            ⟨.str "db not found", some 500, .DB_NOT_EXIST, none⟩)
    ∧ parse_error 500 none "Internal Server Error" (some "req-1")
        = .error (.valueError "code is not a valid ServerErrCode") :=
  ⟨rfl, rfl, rfl, rfl, rfl⟩

/-! ### Transport header assembly and newline check
(`HTTPClient.check_headers` and the pre-loop part of
`HTTPClient._send_request`, `http_client.py` 80-89 and 147-193) -/

/-- A Python header value: a `str`, a `bytes` (both as byte lists), or any
other object (e.g. the dict returned by `bce_v1_signer.sign`, which
`_send_request` line 185 assigns as the `Authorization` value).
`check_headers` only inspects `str`/`bytes` values. -/
inductive HVal where
  | strV (bs : List Nat)
  | bytesV (bs : List Nat)
  | otherV
  deriving DecidableEq

/-- Whether `b'\n'` occurs in `compat.convert_to_bytes(v)` for a
`str`/`bytes` value; non-string values are never flagged. -/
def hasNewlineV : HVal → Bool
  | .strV bs => bs.contains 10
  | .bytesV bs => bs.contains 10
  | .otherV => false

/-- Modelled from the spec: header-name constants of the missing
`http_headers` module; §4.3 lists user-agent, host and content-length. -/
def USER_AGENT : String := "User-Agent"

/-- Modelled from the spec: the `Host` header name (`http_headers`
module not under `src/`). -/
def HOST : String := "Host"

/-- Modelled from the spec: the `Content-Length` header name
(`http_headers` module not under `src/`). -/
def CONTENT_LENGTH : String := "Content-Length"

/-- `HTTPClient.check_headers`: raise `ClientError` on the first
`str`/`bytes` header value containing a newline byte. -/
def check_headers (headers : List (String × HVal)) : Except PyErr Unit :=
  match headers.find? (fun kv => hasNewlineV kv.2) with
  | some kv =>
    .error (.clientError ("There should not be any newline in header[" ++ kv.1 ++ "]"))
  | none => .ok ()

/-- The request body as `_send_request` sees it after the `str → bytes`
encode on line 166: `None`, a byte buffer, or a seekable file object. -/
inductive BodyK where
  | noneB
  | bytesB (bs : List Nat)
  | fileB
  deriving DecidableEq

/-- ASCII bytes of `str(n)` for a natural number. -/
def natStrBytes (n : Nat) : List Nat :=
  (toString n).toList.map Char.toNat

/-- `user_agent.replace('\n', '')` (line 153). -/
def stripNL (bs : List Nat) : List Nat := bs.filter (· ≠ 10)

/-- The `Content-Length` assignment of `_send_request` lines 167-172:
`'0'` for a falsy body, `str(len(body))` for bytes, and for a file object
a `ValueError` unless the caller already set the header. -/
def contentLengthStep (headers : List (String × HVal)) (body : BodyK) :
    Except PyErr (List (String × HVal)) :=
  match body with
  | .noneB => .ok (dictSet headers CONTENT_LENGTH (.strV (natStrBytes 0)))
  | .bytesB bs =>
    if bs.isEmpty then .ok (dictSet headers CONTENT_LENGTH (.strV (natStrBytes 0)))
    else .ok (dictSet headers CONTENT_LENGTH (.strV (natStrBytes bs.length)))
  | .fileB =>
    if dictHasKey headers CONTENT_LENGTH then .ok headers
    else .error (.valueError "No Content-Length is specified.")

/-- The value `_send_request` line 185 stores under `Authorization`: the
dict returned by `bce_v1_signer.sign` — a Python dict, so neither `str`
nor `bytes`, and hence invisible to `check_headers`. -/
def signDictValue : HVal := .otherV

/-- The `User-Agent` and `Host` assignments of `_send_request`
(lines 155 and 163/181). -/
def preHeadersA (uaRaw hostFinal : List Nat)
    (callerHeaders : List (String × HVal)) : List (String × HVal) :=
  dictSet (dictSet callerHeaders USER_AGENT (.strV (stripNL uaRaw)))
    HOST (.bytesV hostFinal)

/-- The pre-dispatch phase of `HTTPClient._send_request` (lines 147-193):
set `User-Agent` (newline-stripped), `Host` (final host, possibly with
port), `Content-Length`, and `Authorization`, then run `check_headers`.
Returns the checked header map handed to the dispatch loop, or the raised
exception. -/
def sendRequestPre (uaRaw hostFinal : List Nat)
    (callerHeaders : List (String × HVal)) (body : BodyK) :
    Except PyErr (List (String × HVal)) :=
  match contentLengthStep (preHeadersA uaRaw hostFinal callerHeaders) body with
  | .error e => .error e
  | .ok h2 =>
    match check_headers (dictSet h2 AUTHORIZATION signDictValue) with
    | .error e => .error e
    | .ok _ => .ok (dictSet h2 AUTHORIZATION signDictValue)

theorem dictLookup_some_mem {α : Type} (d : List (String × α)) (k : String)
    (v : α) (h : dictLookup d k = some v) : (k, v) ∈ d := by
  induction d with
  | nil => cases h
  | cons hd t ih =>
    obtain ⟨a, b⟩ := hd
    by_cases hak : a = k
    · subst hak
      rw [dictLookup, if_pos rfl] at h
      cases h
      exact List.mem_cons_self _ _
    · rw [dictLookup, if_neg hak] at h
      exact List.mem_cons_of_mem _ (ih h)

theorem check_headers_mem_newline (headers : List (String × HVal))
    (k : String) (v : HVal) (hmem : (k, v) ∈ headers)
    (hnl : hasNewlineV v = true) :
    ∃ m, check_headers headers = .error (.clientError m) := by
  have hfind : (headers.find? (fun kv => hasNewlineV kv.2)).isSome := by
    rw [List.find?_isSome]
    exact ⟨(k, v), hmem, hnl⟩
  unfold check_headers
  cases hf : headers.find? (fun kv => hasNewlineV kv.2) with
  | none => rw [hf] at hfind; cases hfind
  | some kv =>
    exact ⟨"There should not be any newline in header[" ++ kv.1 ++ "]", rfl⟩

theorem check_headers_ok_newline_free (headers : List (String × HVal))
    (hok : check_headers headers = .ok ()) :
    headers.all (fun kv => !hasNewlineV kv.2) = true := by
  unfold check_headers at hok
  cases hf : headers.find? (fun kv => hasNewlineV kv.2) with
  | some kv => rw [hf] at hok; cases hok
  | none =>
    rw [List.find?_eq_none] at hf
    rw [List.all_eq_true]
    intro kv hkv
    simpa using hf kv hkv

theorem sendRequestPre_clientError (uaRaw hostFinal : List Nat)
    (callerHeaders : List (String × HVal)) (body : BodyK)
    (H : List (String × HVal))
    (hcl : contentLengthStep (preHeadersA uaRaw hostFinal callerHeaders) body
      = .ok H)
    (k : String) (v : HVal)
    (hk : dictLookup (dictSet H AUTHORIZATION signDictValue) k = some v)
    (hnl : hasNewlineV v = true) :
    ∃ m, sendRequestPre uaRaw hostFinal callerHeaders body
      = .error (.clientError m) := by
  obtain ⟨m, hm⟩ := check_headers_mem_newline _ k v
    (dictLookup_some_mem _ _ _ hk) hnl
  refine ⟨m, ?_⟩
  unfold sendRequestPre
  rw [hcl]
  show (match check_headers (dictSet H AUTHORIZATION signDictValue) with
    | .error e => (.error e : Except PyErr (List (String × HVal)))
    | .ok _ => .ok (dictSet H AUTHORIZATION signDictValue)) = _
  rw [hm]

/-- C10 (amended): a caller header value (string or bytes) containing a
newline byte forces `_send_request` to raise a `ClientError` before the
first dispatch attempt, provided its key is not one of the
transport-managed keys `User-Agent`, `Host`, `Content-Length`,
`Authorization` (those the transport overwrites before the check) and,
when the body is a seekable file object, a `Content-Length` header is
present at the line-171 check (otherwise that check raises `ValueError`
even earlier); and whenever the dispatch loop is reached, every
string-or-bytes value of the checked header map is newline-free. -/
theorem send_request_header_newline_check (uaRaw hostFinal : List Nat)
    (callerHeaders : List (String × HVal)) (body : BodyK) :
    (∀ k v, dictLookup callerHeaders k = some v →
        k ∉ [USER_AGENT, HOST, CONTENT_LENGTH, AUTHORIZATION] →
        hasNewlineV v = true →
        (body = .fileB →
          dictHasKey (preHeadersA uaRaw hostFinal callerHeaders)
            CONTENT_LENGTH = true) →
        ∃ m, sendRequestPre uaRaw hostFinal callerHeaders body
          = .error (.clientError m))
    ∧ (∀ hs, sendRequestPre uaRaw hostFinal callerHeaders body = .ok hs →
        hs.all (fun kv => !hasNewlineV kv.2) = true) := by
  constructor
  · intro k v hk hknot hnl hbody
    have hk1 : ¬k = USER_AGENT := fun he => hknot (by simp [he])
    have hk2 : ¬k = HOST := fun he => hknot (by simp [he])
    have hk3 : ¬k = CONTENT_LENGTH := fun he => hknot (by simp [he])
    have hk4 : ¬k = AUTHORIZATION := fun he => hknot (by simp [he])
    have step : ∀ (d : List (String × HVal)) (k' : String) (w : HVal),
        ¬k = k' → dictLookup d k = some v →
        dictLookup (dictSet d k' w) k = some v := by
      intro d k' w hne hd
      rw [dictLookup_dictSet, if_neg hne]
      exact hd
    have h2 : dictLookup (preHeadersA uaRaw hostFinal callerHeaders) k
        = some v :=
      step _ HOST (.bytesV hostFinal) hk2
        (step _ USER_AGENT (.strV (stripNL uaRaw)) hk1 hk)
    cases body with
    | fileB =>
      have hCL := hbody rfl
      exact sendRequestPre_clientError uaRaw hostFinal callerHeaders _ _
        (by simp [contentLengthStep, hCL])
        k v (step _ AUTHORIZATION signDictValue hk4 h2) hnl
    | noneB =>
      exact sendRequestPre_clientError uaRaw hostFinal callerHeaders _ _ rfl
        k v (step _ AUTHORIZATION signDictValue hk4
          (step _ CONTENT_LENGTH (.strV (natStrBytes 0)) hk3 h2)) hnl
    | bytesB bs =>
      by_cases hbs : bs.isEmpty
      · exact sendRequestPre_clientError uaRaw hostFinal callerHeaders _ _
          (by simp [contentLengthStep, hbs])
          k v (step _ AUTHORIZATION signDictValue hk4
            (step _ CONTENT_LENGTH (.strV (natStrBytes 0)) hk3 h2)) hnl
      · exact sendRequestPre_clientError uaRaw hostFinal callerHeaders _ _
          (by simp [contentLengthStep, hbs])
          k v (step _ AUTHORIZATION signDictValue hk4
            (step _ CONTENT_LENGTH (.strV (natStrBytes bs.length)) hk3 h2)) hnl
  · intro hs hok
    unfold sendRequestPre at hok
    cases hcl : contentLengthStep (preHeadersA uaRaw hostFinal callerHeaders)
        body with
    | error e => rw [hcl] at hok; cases hok
    | ok headers2 =>
      rw [hcl] at hok
      change (match check_headers (dictSet headers2 AUTHORIZATION signDictValue)
          with
        | Except.error e => (Except.error e : Except PyErr (List (String × HVal)))
        | Except.ok _ =>
          Except.ok (dictSet headers2 AUTHORIZATION signDictValue))
        = Except.ok hs at hok
      cases hch : check_headers (dictSet headers2 AUTHORIZATION signDictValue) with
      | error e => rw [hch] at hok; cases hok
      | ok u =>
        obtain rfl : u = () := rfl
        rw [hch] at hok
        cases hok
        exact check_headers_ok_newline_free _ hch

/-- Counterexample to C10 as stated: a caller header map whose
`User-Agent` value contains a newline byte does NOT make `send_request`
raise — the transport overwrites `User-Agent` before `check_headers`
runs, so the pre-dispatch phase succeeds and dispatch is reached. -/
theorem send_request_header_newline_check_cex :
    hasNewlineV (HVal.strV [65, 10]) = true
    ∧ isClientError (sendRequestPre [112] [104]
        [(USER_AGENT, HVal.strV [65, 10])] (BodyK.bytesB [1])) = false
    ∧ (sendRequestPre [112] [104] [(USER_AGENT, HVal.strV [65, 10])]
        (BodyK.bytesB [1])).isOk = true :=
  ⟨rfl, rfl, rfl⟩

/-- Witness for C10 (amended) at a concrete non-managed header key, both
with an empty body and with a seekable file body whose `Content-Length`
the caller provided. -/
theorem send_request_header_newline_check_witness :
    (∃ m, sendRequestPre [112] [104] [("X-Custom", HVal.strV [10])]
        BodyK.noneB = .error (.clientError m))
    ∧ (∃ m, sendRequestPre [112] [104]
        [("X-Custom", HVal.strV [10]), (CONTENT_LENGTH, HVal.strV [53])]
        BodyK.fileB = .error (.clientError m)) :=
  ⟨(send_request_header_newline_check [112] [104]
      [("X-Custom", HVal.strV [10])] BodyK.noneB).1
    "X-Custom" (HVal.strV [10]) rfl (by decide) rfl (by decide),
   (send_request_header_newline_check [112] [104]
      [("X-Custom", HVal.strV [10]), (CONTENT_LENGTH, HVal.strV [53])]
      BodyK.fileB).1
    "X-Custom" (HVal.strV [10]) rfl (by decide) rfl (by decide)⟩

/-! ### Search request rendering (`pymochow/model/table.py` 105-435)

Python floats are modelled as rationals; integer-valued request fields
(`limit`, `ef`, ...) are carried as rationals so that they embed directly
into JSON numbers. -/

/-- `FloatVector` (the only concrete `Vector`). -/
inductive VectorRep where
  | floatVector (floats : List ℚ)

/-- `Vector.representation()` as a JSON value. -/
def VectorRep.representation : VectorRep → Json
  | .floatVector fs => .arr (fs.map .num)

/-- `VectorSearchConfig` (`table.py` 117-150). -/
structure VectorSearchConfig where
  ef : Option ℚ
  pruning : Option Bool
  search_coarse_count : Option ℚ

/-- `VectorSearchConfig.to_dict`. -/
def VectorSearchConfig.to_dict (c : VectorSearchConfig) :
    List (String × Json) :=
  let res : List (String × Json) := []
  let res := match c.ef with
    | some v => dictSet res "ef" (.num v)
    | none => res
  let res := match c.pruning with
    | some v => dictSet res "pruning" (.bool v)
    | none => res
  match c.search_coarse_count with
  | some v => dictSet res "searchCoarseCount" (.num v)
  | none => res

/-- `VectorTopkSearchRequest` fields (`limit` defaults to `50` at
construction; `vector` may be set later by the pipeline). -/
structure VectorTopkSearchRequest where
  vector_field : String
  vector : Option VectorRep
  limit : Option ℚ
  filter : Option String
  config : Option VectorSearchConfig

/-- The `anns` block of `VectorTopkSearchRequest.to_dict`
(`table.py` 192-213), given the vector present. -/
def annsOfTopk (r : VectorTopkSearchRequest) (vec : VectorRep) :
    List (String × Json) :=
  let anns := dictSet (dictSet [] "vectorField" (.str r.vector_field))
    "vectorFloats" vec.representation
  let anns := match r.filter with
    | some f => dictSet anns "filter" (.str f)
    | none => anns
  let params : List (String × Json) := match r.config with
    | some c => c.to_dict
    | none => []
  let params := match r.limit with
    | some l => dictSet params "limit" (.num l)
    | none => params
  if params.length ≠ 0 then dictSet anns "params" (.obj params) else anns

/-- `VectorTopkSearchRequest.to_dict`; `none` models the `AttributeError`
on `None.representation()` when no vector was attached. -/
def VectorTopkSearchRequest.to_dict (r : VectorTopkSearchRequest) :
    Option (List (String × Json)) :=
  r.vector.map (fun vec => dictSet [] "anns" (.obj (annsOfTopk r vec)))

/-- `VectorRangeSearchRequest` fields (`table.py` 220-237). -/
structure VectorRangeSearchRequest where
  vector_field : String
  vector : Option VectorRep
  distance_near : Option ℚ
  distance_far : Option ℚ
  limit : Option ℚ
  filter : Option String
  config : Option VectorSearchConfig

/-- The `anns` block of `VectorRangeSearchRequest.to_dict`
(`table.py` 249-274). -/
def annsOfRange (r : VectorRangeSearchRequest) (vec : VectorRep) :
    List (String × Json) :=
  let anns := dictSet (dictSet [] "vectorField" (.str r.vector_field))
    "vectorFloats" vec.representation
  let anns := match r.filter with
    | some f => dictSet anns "filter" (.str f)
    | none => anns
  let params : List (String × Json) := match r.config with
    | some c => c.to_dict
    | none => []
  let params := match r.distance_near with
    | some v => dictSet params "distanceNear" (.num v)
    | none => params
  let params := match r.distance_far with
    | some v => dictSet params "distanceFar" (.num v)
    | none => params
  let params := match r.limit with
    | some l => dictSet params "limit" (.num l)
    | none => params
  if params.length ≠ 0 then dictSet anns "params" (.obj params) else anns

/-- `VectorRangeSearchRequest.to_dict`. -/
def VectorRangeSearchRequest.to_dict (r : VectorRangeSearchRequest) :
    Option (List (String × Json)) :=
  r.vector.map (fun vec => dictSet [] "anns" (.obj (annsOfRange r vec)))

/-- `VectorBatchSearchRequest` fields (`table.py` 282-298). -/
structure VectorBatchSearchRequest where
  vector_field : String
  vectors : Option (List VectorRep)
  limit : Option ℚ
  distance_range : Option (Option ℚ × Option ℚ)
  filter : Option String
  config : Option VectorSearchConfig

/-- The `anns` block of `VectorBatchSearchRequest.to_dict`
(`table.py` 310-338). -/
def annsOfBatch (r : VectorBatchSearchRequest) (vecs : List VectorRep) :
    List (String × Json) :=
  let anns := dictSet (dictSet [] "vectorField" (.str r.vector_field))
    "vectorFloats" (.arr (vecs.map VectorRep.representation))
  let anns := match r.filter with
    | some f => dictSet anns "filter" (.str f)
    | none => anns
  let params : List (String × Json) := match r.config with
    | some c => c.to_dict
    | none => []
  let params := match r.distance_range with
    | some dr =>
      let params := match dr.1 with
        | some v => dictSet params "distanceNear" (.num v)
        | none => params
      match dr.2 with
      | some v => dictSet params "distanceFar" (.num v)
      | none => params
    | none => params
  let params := match r.limit with
    | some l => dictSet params "limit" (.num l)
    | none => params
  if params.length ≠ 0 then dictSet anns "params" (.obj params) else anns

/-- `VectorBatchSearchRequest.to_dict`; `none` models the `TypeError` of
iterating over `None` vectors. -/
def VectorBatchSearchRequest.to_dict (r : VectorBatchSearchRequest) :
    Option (List (String × Json)) :=
  r.vectors.map (fun vecs => dictSet [] "anns" (.obj (annsOfBatch r vecs)))

/-- The `VectorSearchRequest` union (`table.py` 382-384). -/
inductive VectorSearchRequestU where
  | topk (r : VectorTopkSearchRequest)
  | range (r : VectorRangeSearchRequest)
  | batch (r : VectorBatchSearchRequest)

/-- `to_dict` dispatch over the union. -/
def VectorSearchRequestU.to_dict : VectorSearchRequestU →
    Option (List (String × Json))
  | .topk r => r.to_dict
  | .range r => r.to_dict
  | .batch r => r.to_dict

/-- `BM25SearchRequest` fields (`table.py` 346-358). -/
structure BM25SearchRequest where
  index_name : String
  search_text : String
  limit : Option ℚ
  filter : Option String

/-- `BM25SearchRequest.to_dict` (`table.py` 360-375): the
`BM25SearchParams` block plus branch-level top-level `limit`/`filter`. -/
def BM25SearchRequest.to_dict (r : BM25SearchRequest) :
    List (String × Json) :=
  let res : List (String × Json) :=
    [("BM25SearchParams",
      .obj [("indexName", .str r.index_name),
            ("searchText", .str r.search_text)])]
  let res := match r.limit with
    | some l => dictSet res "limit" (.num l)
    | none => res
  match r.filter with
  | some f => dictSet res "filter" (.str f)
  | none => res

/-- `HybridSearchRequest` fields (`table.py` 390-413); weights default to
`0.5` each. -/
structure HybridSearchRequest where
  vector_request : VectorSearchRequestU
  bm25_request : BM25SearchRequest
  vector_weight : ℚ
  bm25_weight : ℚ
  limit : Option ℚ
  filter : Option String

/-- `HybridSearchRequest.to_dict` (`table.py` 415-431): render both
branches, write the per-branch weights into the nested `anns` /
`BM25SearchParams` objects, merge both dicts into `res`, then write the
top-level `limit` and `filter`. -/
def HybridSearchRequest.to_dict (h : HybridSearchRequest) :
    Option (List (String × Json)) :=
  match h.vector_request.to_dict with
  | none => none
  | some vsp =>
    match dictLookup vsp "anns" with
    | some (.obj a) =>
      let vsp := dictSet vsp "anns"
        (.obj (dictSet a "weight" (.num h.vector_weight)))
      let bsp := h.bm25_request.to_dict
      match dictLookup bsp "BM25SearchParams" with
      | some (.obj b) =>
        let bsp := dictSet bsp "BM25SearchParams"
          (.obj (dictSet b "weight" (.num h.bm25_weight)))
        let res := dictUpdate (dictUpdate [] vsp) bsp
        let res := match h.limit with
          | some l => dictSet res "limit" (.num l)
          | none => res
        let res := match h.filter with
          | some f => dictSet res "filter" (.str f)
          | none => res
        some res
      | _ => none
    | _ => none

/-- Lookup a key inside an optional JSON object. -/
def jObjLookup (j : Option Json) (k : String) : Option Json :=
  match j with
  | some (.obj es) => dictLookup es k
  | _ => none

/-- Lookup a key in an optional rendered body. -/
def bodyLookup (d : Option (List (String × Json))) (k : String) :
    Option Json :=
  match d with
  | some es => dictLookup es k
  | none => none

theorem annsOfTopk_lookup_limit (r : VectorTopkSearchRequest)
    (vec : VectorRep) : dictLookup (annsOfTopk r vec) "limit" = none := by
  unfold annsOfTopk
  cases hf : r.filter <;> simp only [hf] <;> split_ifs <;>
    simp [dictLookup_dictSet, dictLookup]

theorem annsOfRange_lookup_limit (r : VectorRangeSearchRequest)
    (vec : VectorRep) : dictLookup (annsOfRange r vec) "limit" = none := by
  unfold annsOfRange
  cases hf : r.filter <;> simp only [hf] <;> split_ifs <;>
    simp [dictLookup_dictSet, dictLookup]

theorem annsOfBatch_lookup_limit (r : VectorBatchSearchRequest)
    (vecs : List VectorRep) :
    dictLookup (annsOfBatch r vecs) "limit" = none := by
  unfold annsOfBatch
  cases hf : r.filter <;> simp only [hf] <;> split_ifs <;>
    simp [dictLookup_dictSet, dictLookup]

/-- Every vector `to_dict` renders a single-key `{"anns": {...}}` body
whose `anns` object has no `"limit"` entry of its own (branch limits go
into the nested `params`). -/
theorem vector_to_dict_shape (v : VectorSearchRequestU)
    (d : List (String × Json)) (h : v.to_dict = some d) :
    ∃ a, d = [("anns", Json.obj a)] ∧ dictLookup a "limit" = none := by
  cases v with
  | topk r =>
    simp only [VectorSearchRequestU.to_dict, VectorTopkSearchRequest.to_dict] at h
    cases hv : r.vector with
    | none => rw [hv] at h; cases h
    | some vec =>
      rw [hv] at h
      obtain rfl : dictSet [] "anns" (.obj (annsOfTopk r vec)) = d :=
        Option.some.inj h
      exact ⟨annsOfTopk r vec, rfl, annsOfTopk_lookup_limit r vec⟩
  | range r =>
    simp only [VectorSearchRequestU.to_dict, VectorRangeSearchRequest.to_dict] at h
    cases hv : r.vector with
    | none => rw [hv] at h; cases h
    | some vec =>
      rw [hv] at h
      obtain rfl : dictSet [] "anns" (.obj (annsOfRange r vec)) = d :=
        Option.some.inj h
      exact ⟨annsOfRange r vec, rfl, annsOfRange_lookup_limit r vec⟩
  | batch r =>
    simp only [VectorSearchRequestU.to_dict, VectorBatchSearchRequest.to_dict] at h
    cases hv : r.vectors with
    | none => rw [hv] at h; cases h
    | some vecs =>
      rw [hv] at h
      obtain rfl : dictSet [] "anns" (.obj (annsOfBatch r vecs)) = d :=
        Option.some.inj h
      exact ⟨annsOfBatch r vecs, rfl, annsOfBatch_lookup_limit r vecs⟩

/-- `BM25SearchRequest.to_dict` always carries the `BM25SearchParams`
object (which itself has no `"limit"`), never an `"anns"` key, and is a
real dict (no duplicate keys). -/
theorem bm25_to_dict_shape (r : BM25SearchRequest) :
    dictLookup r.to_dict "BM25SearchParams"
      = some (.obj [("indexName", .str r.index_name),
                    ("searchText", .str r.search_text)])
    ∧ dictLookup [("indexName", Json.str r.index_name),
                  ("searchText", Json.str r.search_text)] "limit" = none
    ∧ dictLookup r.to_dict "anns" = none
    ∧ NodupKeys r.to_dict := by
  unfold BM25SearchRequest.to_dict
  cases hl : r.limit <;> cases hf : r.filter <;>
    refine ⟨?_, ?_, ?_, ?_⟩ <;>
    simp [dictLookup_dictSet, dictLookup, NodupKeys, dictKeys, dictSet]

/-- C1 (amended): a hybrid body rendered with top-level limit `L` carries
`anns.weight` = the vector weight, `BM25SearchParams.weight` = the BM25
weight, exactly one top-level `"limit"` entry equal to `L`, and no
`"limit"` entry directly inside the `anns` object or inside the
`BM25SearchParams` object — however the nested `anns.params` object
retains the vector branch's own limit whenever that branch sets one
(e.g. the `VectorTopkSearchRequest` default of 50). -/
theorem hybrid_to_dict_weights_and_limit (h : HybridSearchRequest) (L : ℚ)
    (body : List (String × Json)) (hL : h.limit = some L)
    (hb : h.to_dict = some body) :
    (∃ a, dictLookup body "anns" = some (.obj a)
        ∧ dictLookup a "weight" = some (.num h.vector_weight)
        ∧ dictLookup a "limit" = none)
    ∧ (∃ b, dictLookup body "BM25SearchParams" = some (.obj b)
        ∧ dictLookup b "weight" = some (.num h.bm25_weight)
        ∧ dictLookup b "limit" = none)
    ∧ dictLookup body "limit" = some (.num L)
    ∧ countKey body "limit" = 1 := by
  obtain ⟨hbm, hb0lim, hbmanns, hbmnodup⟩ := bm25_to_dict_shape h.bm25_request
  unfold HybridSearchRequest.to_dict at hb
  cases hvd : h.vector_request.to_dict with
  | none => rw [hvd] at hb; cases hb
  | some vsp =>
    rw [hvd] at hb
    obtain ⟨a0, rfl, ha0lim⟩ := vector_to_dict_shape _ _ hvd
    set a1 := dictSet a0 "weight" (.num h.vector_weight) with ha1
    set b1 := dictSet [("indexName", Json.str h.bm25_request.index_name),
      ("searchText", Json.str h.bm25_request.search_text)] "weight"
      (.num h.bm25_weight) with hb1
    set bsp1 := dictSet h.bm25_request.to_dict "BM25SearchParams" (.obj b1)
      with hbsp1
    have hbsp1nodup : NodupKeys bsp1 := nodupKeys_dictSet _ _ _ hbmnodup
    have hbsp1anns : dictLookup bsp1 "anns" = none := by
      rw [hbsp1, dictLookup_dictSet, if_neg (by decide), hbmanns]
    have hbsp1bm : dictLookup bsp1 "BM25SearchParams" = some (.obj b1) := by
      rw [hbsp1, dictLookup_dictSet, if_pos rfl]
    have hvsp1 : dictSet [("anns", Json.obj a0)] "anns" (.obj a1)
        = [("anns", Json.obj a1)] := by
      simp [dictSet]
    set res0 := dictUpdate (dictUpdate [] [("anns", Json.obj a1)]) bsp1
      with hres0
    have hres0' : res0 = dictUpdate [("anns", Json.obj a1)] bsp1 := rfl
    have hres0nodup : NodupKeys res0 := by
      rw [hres0]
      exact nodupKeys_dictUpdate _ _
        (nodupKeys_dictUpdate _ _ (by simp [NodupKeys, dictKeys]))
    have hres0anns : dictLookup res0 "anns" = some (.obj a1) := by
      rw [hres0', dictLookup_dictUpdate _ _ _ hbsp1nodup, hbsp1anns]
      simp [dictLookup]
    have hres0bm : dictLookup res0 "BM25SearchParams" = some (.obj b1) := by
      rw [hres0', dictLookup_dictUpdate _ _ _ hbsp1nodup, hbsp1bm]
    set res1 := dictSet res0 "limit" (.num L) with hres1
    have hres1nodup : NodupKeys res1 := nodupKeys_dictSet _ _ _ hres0nodup
    have hres1anns : dictLookup res1 "anns" = some (.obj a1) := by
      rw [hres1, dictLookup_dictSet, if_neg (by decide), hres0anns]
    have hres1bm : dictLookup res1 "BM25SearchParams" = some (.obj b1) := by
      rw [hres1, dictLookup_dictSet, if_neg (by decide), hres0bm]
    have hres1lim : dictLookup res1 "limit" = some (.num L) := by
      rw [hres1, dictLookup_dictSet, if_pos rfl]
    have ha1w : dictLookup a1 "weight" = some (.num h.vector_weight) := by
      rw [ha1, dictLookup_dictSet, if_pos rfl]
    have ha1lim : dictLookup a1 "limit" = none := by
      rw [ha1, dictLookup_dictSet, if_neg (by decide), ha0lim]
    have hb1w : dictLookup b1 "weight" = some (.num h.bm25_weight) := by
      rw [hb1, dictLookup_dictSet, if_pos rfl]
    have hb1lim : dictLookup b1 "limit" = none := by
      rw [hb1, dictLookup_dictSet, if_neg (by decide), hb0lim]
    cases hf : h.filter with
    | none =>
      rw [hL, hf] at hb
      simp [hbm, dictLookup] at hb
      obtain rfl := hb
      exact ⟨⟨a1, hres1anns, ha1w, ha1lim⟩,
        ⟨b1, hres1bm, hb1w, hb1lim⟩, hres1lim,
        countKey_eq_one_of_lookup _ _ hres1nodup
          (by show (dictLookup res1 "limit").isSome = true
              rw [hres1lim]
              rfl)⟩
    | some f =>
      rw [hL, hf] at hb
      simp [hbm, dictLookup] at hb
      obtain rfl := hb
      refine ⟨⟨a1, ?_, ha1w, ha1lim⟩, ⟨b1, ?_, hb1w, hb1lim⟩, ?_, ?_⟩
      · show dictLookup (dictSet res1 "filter" (.str f)) "anns"
          = some (.obj a1)
        rw [dictLookup_dictSet, if_neg (by decide), hres1anns]
      · show dictLookup (dictSet res1 "filter" (.str f)) "BM25SearchParams"
          = some (.obj b1)
        rw [dictLookup_dictSet, if_neg (by decide), hres1bm]
      · show dictLookup (dictSet res1 "filter" (.str f)) "limit"
          = some (.num L)
        rw [dictLookup_dictSet, if_neg (by decide), hres1lim]
      · show countKey (dictSet res1 "filter" (.str f)) "limit" = 1
        exact countKey_eq_one_of_lookup _ _
          (nodupKeys_dictSet _ _ _ hres1nodup)
          (by rw [dictLookup_dictSet, if_neg (by decide), hres1lim]; rfl)

/-- A vector branch with no branch-level limit (for the C1 witness). -/
def topkW : VectorTopkSearchRequest :=
  ⟨"v", some (.floatVector [1]), none, none, none⟩

/-- A plain BM25 branch. -/
def bm25W : BM25SearchRequest := ⟨"idx", "txt", none, none⟩

/-- A hybrid request with weights 2/5 and 3/5 and top-level limit 15. -/
def hybridW : HybridSearchRequest :=
  ⟨.topk topkW, bm25W, 2/5, 3/5, some 15, none⟩

/-- The rendered body of `hybridW`. -/
def bodyW : List (String × Json) :=
  [("anns", .obj [("vectorField", .str "v"),
                  ("vectorFloats", .arr [.num 1]),
                  ("weight", .num (2/5))]),
   ("BM25SearchParams", .obj [("indexName", .str "idx"),
                              ("searchText", .str "txt"),
                              ("weight", .num (3/5))]),
   ("limit", .num 15)]

/-- Witness for C1 (amended) at a concrete hybrid request. -/
theorem hybrid_to_dict_weights_and_limit_witness :
    (∃ a, dictLookup bodyW "anns" = some (.obj a)
        ∧ dictLookup a "weight" = some (.num hybridW.vector_weight)
        ∧ dictLookup a "limit" = none)
    ∧ (∃ b, dictLookup bodyW "BM25SearchParams" = some (.obj b)
        ∧ dictLookup b "weight" = some (.num hybridW.bm25_weight)
        ∧ dictLookup b "limit" = none)
    ∧ dictLookup bodyW "limit" = some (.num 15)
    ∧ countKey bodyW "limit" = 1 :=
  hybrid_to_dict_weights_and_limit hybridW 15 bodyW rfl rfl

/-- A `VectorTopkSearchRequest` carrying its constructor-default
`limit = 50`. -/
def topkCex : VectorTopkSearchRequest :=
  ⟨"v", some (.floatVector [1]), some 50, none, none⟩

/-- Hybrid request with vector weight 2/5, BM25 weight 3/5, top-level
limit 15, whose vector branch carries the default limit 50. -/
def hybridCex : HybridSearchRequest :=
  ⟨.topk topkCex, bm25W, 2/5, 3/5, some 15, none⟩

/-- Counterexample to C1 as stated: with the vector branch built at its
default `limit=50`, the rendered hybrid body DOES contain a `"limit"` key
inside the `anns` sub-object's nested `params` (value 50), alongside the
top-level `"limit" = 15`. -/
theorem hybrid_limit_cex :
    jObjLookup (jObjLookup (bodyLookup hybridCex.to_dict "anns") "params")
        "limit" = some (.num 50)
    ∧ bodyLookup hybridCex.to_dict "limit" = some (.num 15) :=
  ⟨rfl, rfl⟩

/-! ### Pipeline vector search
(`DefaultPipeline.vector_search`, `default_pipeline.py` 88-153)

The embedder is an external collaborator; its output
(`embedder.embedding_text(search_contents)`) is passed in as
`embeddings`.  A successful result (`Except.ok`) carries the request the
method hands to `Table.vector_search` — the delegation that performs the
network call; every `Except.error` is raised before that call. -/

def DefaultPipeline_vector_search (searchContents : List String)
    (embeddings : List (List ℚ)) (req : VectorSearchRequestU) :
    Except PyErr VectorSearchRequestU :=
  if searchContents.isEmpty then
    .error (.valueError "search_contents must not be None or empty")
  else if searchContents.length = 1 then
    match req with
    | .topk r =>
      match embeddings[0]? with
      | some e => .ok (.topk { r with vector := some (.floatVector e) })
      | none => .error .indexError
    | .range r =>
      match embeddings[0]? with
      | some e => .ok (.range { r with vector := some (.floatVector e) })
      | none => .error .indexError
    | .batch _ =>
      .error (.valueError
        "For a single search content, search_request must be VectorTopkSearchRequest or VectorRangeSearchRequest")
  else
    match req with
    | .batch r =>
      .ok (.batch
        { r with vectors := some (embeddings.map VectorRep.floatVector) })
    | _ =>
      .error (.valueError
        "For multiple search contents, search_request must be VectorBatchSearchRequest")

/-- C6 (amended): with exactly one search text a `VectorBatchSearchRequest`
raises a `ValueError` (not a ClientError) before the table search is
invoked; with more than one text a `VectorTopkSearchRequest` or
`VectorRangeSearchRequest` likewise raises a `ValueError` before the table
search; a single text with a `VectorTopkSearchRequest` proceeds to
`Table.vector_search` with the embedding attached. -/
theorem pipeline_vector_search_variant_check (c : List String)
    (embs : List (List ℚ)) :
    (∀ r, c.length = 1 →
      DefaultPipeline_vector_search c embs (.batch r)
        = .error (.valueError
          "For a single search content, search_request must be VectorTopkSearchRequest or VectorRangeSearchRequest"))
    ∧ (∀ r, 1 < c.length →
      DefaultPipeline_vector_search c embs (.topk r)
        = .error (.valueError
          "For multiple search contents, search_request must be VectorBatchSearchRequest"))
    ∧ (∀ r, 1 < c.length →
      DefaultPipeline_vector_search c embs (.range r)
        = .error (.valueError
          "For multiple search contents, search_request must be VectorBatchSearchRequest"))
    ∧ (∀ r e rest, c.length = 1 → embs = e :: rest →
      DefaultPipeline_vector_search c embs (.topk r)
        = .ok (.topk { r with vector := some (.floatVector e) })) := by
  have hne : ∀ n, c.length = n → 0 < n → c.isEmpty = false := by
    intro n hn hpos
    cases c with
    | nil => simp at hn; omega
    | cons a t => rfl
  refine ⟨?_, ?_, ?_, ?_⟩
  · intro r h1
    rw [DefaultPipeline_vector_search, hne _ h1 (by omega)]
    simp [h1]
  · intro r h1
    rw [DefaultPipeline_vector_search, hne _ rfl (by omega)]
    simp [Nat.ne_of_gt h1]
  · intro r h1
    rw [DefaultPipeline_vector_search, hne _ rfl (by omega)]
    simp [Nat.ne_of_gt h1]
  · intro r e rest h1 hembs
    rw [DefaultPipeline_vector_search, hne _ h1 (by omega)]
    simp [h1, hembs]

/-- The batch request the pipeline counterexample passes. -/
def batchPip : VectorBatchSearchRequest := ⟨"v", none, none, none, none, none⟩

/-- Counterexample to C6 as stated: the mismatched-variant error for a
single text with a batch request is a `ValueError`, not the claimed
`ClientError`. -/
theorem pipeline_vector_search_cex :
    DefaultPipeline_vector_search ["q"] [[1]] (.batch batchPip)
      = .error (.valueError
        "For a single search content, search_request must be VectorTopkSearchRequest or VectorRangeSearchRequest")
    ∧ isClientError
        (DefaultPipeline_vector_search ["q"] [[1]] (.batch batchPip))
      = false :=
  ⟨rfl, rfl⟩

/-- A topk request as the pipeline receives it (no vector attached yet). -/
def topkPip : VectorTopkSearchRequest := ⟨"v", none, some 50, none, none⟩

/-- Witness for C6 (amended): a single text with a topk request reaches
the table search with the embedding attached. -/
theorem pipeline_vector_search_variant_check_witness :
    DefaultPipeline_vector_search ["q"] [[1]] (.topk topkPip)
      = .ok (.topk { topkPip with vector := some (.floatVector [1]) }) :=
  (pipeline_vector_search_variant_check ["q"] [[1]]).2.2.2 topkPip [1] [] rfl rfl

/-! ### Index description (`Table.describe_index`, `table.py` 1008-1084,
with `schema.py` / `enum.py`)

`table.py` imports `InvertedIndex`, `InvertedIndexParams`,
`InvertedIndexAnalyzer` and `InvertedIndexParseMode` from
`pymochow.model.schema` and compares against `IndexType.INVERTED_INDEX`,
but src's `schema.py` and `enum.py` do not contain them; those pieces are
modelled from the spec below.  Fields the code stores without conversion
are kept as raw `Json` values, exactly as Python stores whatever the
decoded payload held. -/

/-- Modelled from the spec: `IndexType` (`enum.py` 29-39: HNSW, FLAT,
PUCK, HNSWPQ, SECONDARY_INDEX) extended with the inverted-index member
that `table.py` imports but which is absent from src's `enum.py`; §4.4
lists the inverted variant in the index dispatch.  Its wire tag is
modelled as `"INVERTED"`. -/
inductive IndexType where
  | HNSW | FLAT | PUCK | HNSWPQ | SECONDARY_INDEX | INVERTED_INDEX
  deriving DecidableEq

/-- The string wire value of each `IndexType` member. -/
def IndexType.value : IndexType → String
  | .HNSW => "HNSW"
  | .FLAT => "FLAT"
  | .PUCK => "PUCK"
  | .HNSWPQ => "HNSWPQ"
  | .SECONDARY_INDEX => "SECONDARY"
  | .INVERTED_INDEX => "INVERTED"

/-- `MetricType` (`enum.py` 20-26). -/
inductive MetricType where
  | L2 | IP | COSINE
  deriving DecidableEq

/-- Python `getattr(MetricType, name, None)`: lookup by member name. -/
def MetricType.fromName (s : String) : Option MetricType :=
  if s = "L2" then some .L2
  else if s = "IP" then some .IP
  else if s = "COSINE" then some .COSINE
  else none

/-- `IndexState` (`enum.py` 160-166). -/
inductive IndexState where
  | BUILDING | NORMAL
  deriving DecidableEq

/-- Python `getattr(IndexState, name, None)`. -/
def IndexState.fromName (s : String) : Option IndexState :=
  if s = "BUILDING" then some .BUILDING
  else if s = "NORMAL" then some .NORMAL
  else none

/-- The auto-build policy objects of `schema.py` 18-76, as reconstructed
by `AutoBuildTool.get_auto_build_index_policy`. -/
inductive AutoBuildPolicyU where
  | timing (t : Json)
  | periodical (periodInSecond : Json) (t : Json)
  | rowCountIncrement (inc : Json) (rate : Json)

/-- `AutoBuildTool.get_auto_build_index_policy` (`schema.py` 84-102):
dispatch on `policyType` (upper-cased); unknown policy types fall through
to `None`; a non-string `policyType` has no `.upper()`
(`AttributeError`). -/
def get_auto_build_index_policy (d : List (String × Json)) :
    Except PyErr (Option AutoBuildPolicyU) :=
  if dictHasKey d "policyType" = false then .ok none
  else
    match dictLookup d "policyType" with
    | some (.str s) =>
      if s.toUpper = "TIMING" then
        match dictLookup d "timing" with
        | some t => .ok (some (.timing t))
        | none => .error (.keyError "timing")
      else if s.toUpper = "PERIODICAL" then
        if dictHasKey d "timing" then
          match dictLookup d "periodInSecond", dictLookup d "timing" with
          | some p, some t => .ok (some (.periodical p t))
          | none, _ => .error (.keyError "periodInSecond")
          | _, none => .error (.keyError "timing")
        else
          match dictLookup d "periodInSecond" with
          | some p => .ok (some (.periodical p (.str "")))
          | none => .error (.keyError "periodInSecond")
      else if s.toUpper = "ROW_COUNT_INCREMENT" then
        .ok (some (.rowCountIncrement
          (match dictLookup d "rowCountIncrement" with
            | some v => v
            | none => .num 0)
          (match dictLookup d "rowCountIncrementRatio" with
            | some v => v
            | none => .num 0)))
      else .ok none
    | some _ => .error .attributeError
    | none => .error (.keyError "policyType")

/-- `HNSWParams` (`schema.py` 203-218); values kept raw. -/
structure HNSWParamsS where
  m : Json
  ef_construction : Json

/-- `HNSWPQParams` (`schema.py` 221-240). -/
structure HNSWPQParamsS where
  m : Json
  ef_construction : Json
  NSQ : Json
  samplerate : Json

/-- `PUCKParams` (`schema.py` 243-258). -/
structure PUCKParamsS where
  coarseClusterCount : Json
  fineClusterCount : Json

/-- The algorithm-specific params a `VectorIndex` can carry. -/
inductive VectorParamsU where
  | hnsw (p : HNSWParamsS)
  | hnswpq (p : HNSWPQParamsS)
  | puck (p : PUCKParamsS)

/-- Python truthiness of a decoded JSON value (`if self._auto_build:`). -/
def jsonTruthy : Json → Bool
  | .null => false
  | .bool b => b
  | .num q => decide (q ≠ 0)
  | .str s => !s.isEmpty
  | .arr xs => !xs.isEmpty
  | .obj es => !es.isEmpty

/-- `VectorIndex` as built by `VectorIndex.__init__`
(`schema.py` 261-288). -/
structure VectorIndexS where
  index_name : Json
  index_type : IndexType
  field : Json
  metric_type : Option MetricType
  params : Option VectorParamsU
  auto_build : Json
  auto_build_index_policy : Option AutoBuildPolicyU
  state : Option IndexState

/-- `VectorIndex.__init__` keeps the auto-build policy only when
`auto_build` is truthy (`schema.py` 284-287). -/
def mkVectorIndex (index_name : Json) (index_type : IndexType) (field : Json)
    (metric_type : Option MetricType) (params : Option VectorParamsU)
    (auto_build : Json) (policy : Option AutoBuildPolicyU)
    (state : Option IndexState) : VectorIndexS :=
  { index_name := index_name, index_type := index_type, field := field,
    metric_type := metric_type, params := params, auto_build := auto_build,
    auto_build_index_policy := if jsonTruthy auto_build then policy else none,
    state := state }

/-- `SecondaryIndex` (`schema.py` 332-340); its index type is fixed to
`SECONDARY_INDEX` by the constructor. -/
structure SecondaryIndexS where
  index_name : Json
  field : Json

/-- Modelled from the spec: `InvertedIndexParams` (imported by `table.py`
from `pymochow.model.schema` but absent from src); §4.4 describes the
inverted/text index as carrying analyzer params.  The analyzer and parse
mode are held as the server-reported member names; the members of the
missing `InvertedIndexAnalyzer`/`InvertedIndexParseMode` enums are
unknown, so every reported name is accepted. -/
structure InvertedIndexParamsS where
  analyzer : Option String
  parse_mode : Option String

/-- Modelled from the spec: `InvertedIndex` (imported by `table.py` from
`pymochow.model.schema` but absent from src): index name, indexed fields
and analyzer params. -/
structure InvertedIndexS where
  index_name : Json
  fields : Json
  params : InvertedIndexParamsS

/-- The typed index variants `describe_index` can return. -/
inductive IndexU where
  | vector (v : VectorIndexS)
  | secondary (s : SecondaryIndexS)
  | inverted (i : InvertedIndexS)

/-- Python `d[k]` with `KeyError`. -/
def pyGet (d : List (String × Json)) (k : String) : Except PyErr Json :=
  match dictLookup d k with
  | some v => .ok v
  | none => .error (.keyError k)

/-- Subscripting a decoded value: only objects support string keys. -/
def pyGetObj (j : Json) : Except PyErr (List (String × Json)) :=
  match j with
  | .obj es => .ok es
  | _ => .error .typeError

/-- `getattr(Enum, name, default)` needs a string name. -/
def getattrName (j : Json) : Except PyErr String :=
  match j with
  | .str s => .ok s
  | _ => .error .typeError

/-- Python `decoded == "TAG"`: true only for that very string. -/
def jsonEqStr (j : Json) (s : String) : Bool :=
  match j with
  | .str t => t = s
  | _ => false

/-- The tag shown in the unsupported-index-type `ClientError` message. -/
def jsonTagStr (j : Json) : String :=
  match j with
  | .str t => t
  | _ => ""

/-- The `autoBuildPolicy` prelude of `describe_index`
(`table.py` 1026-1028). -/
def decodeAutoBuildPolicy (index : List (String × Json)) :
    Except PyErr (Option AutoBuildPolicyU) :=
  if dictHasKey index "autoBuildPolicy" then do
    let pj ← pyGet index "autoBuildPolicy"
    let pd ← pyGetObj pj
    get_auto_build_index_policy pd
  else pure none

/-- `Table.describe_index`'s reconstruction of the typed index variant
from the server payload (`table.py` 1025-1084). -/
def describe_index_decode (index : List (String × Json)) :
    Except PyErr IndexU := do
  let abp ← decodeAutoBuildPolicy index
  let it ← pyGet index "indexType"
  if jsonEqStr it IndexType.HNSW.value then do
    let nm ← pyGet index "indexName"
    let f ← pyGet index "field"
    let mtn ← getattrName (← pyGet index "metricType")
    let pd ← pyGetObj (← pyGet index "params")
    let mv ← pyGet pd "M"
    let ev ← pyGet pd "efConstruction"
    let ab ← pyGet index "autoBuild"
    let stn ← getattrName (← pyGet index "state")
    pure (.vector (mkVectorIndex nm .HNSW f (MetricType.fromName mtn)
      (some (.hnsw ⟨mv, ev⟩)) ab abp (IndexState.fromName stn)))
  else if jsonEqStr it IndexType.HNSWPQ.value then do
    let nm ← pyGet index "indexName"
    let f ← pyGet index "field"
    let mtn ← getattrName (← pyGet index "metricType")
    let pd ← pyGetObj (← pyGet index "params")
    let mv ← pyGet pd "M"
    let ev ← pyGet pd "efConstruction"
    let nsq ← pyGet pd "NSQ"
    let sr ← pyGet pd "sampleRate"
    let ab ← pyGet index "autoBuild"
    let stn ← getattrName (← pyGet index "state")
    pure (.vector (mkVectorIndex nm .HNSWPQ f (MetricType.fromName mtn)
      (some (.hnswpq ⟨mv, ev, nsq, sr⟩)) ab abp (IndexState.fromName stn)))
  else if jsonEqStr it IndexType.FLAT.value then do
    let nm ← pyGet index "indexName"
    let f ← pyGet index "field"
    let mtn ← getattrName (← pyGet index "metricType")
    let ab ← pyGet index "autoBuild"
    let stn ← getattrName (← pyGet index "state")
    pure (.vector (mkVectorIndex nm .FLAT f (MetricType.fromName mtn)
      none ab abp (IndexState.fromName stn)))
  else if jsonEqStr it IndexType.PUCK.value then do
    let nm ← pyGet index "indexName"
    let f ← pyGet index "field"
    let mtn ← getattrName (← pyGet index "metricType")
    let pd ← pyGetObj (← pyGet index "params")
    let cc ← pyGet pd "coarseClusterCount"
    let fc ← pyGet pd "fineClusterCount"
    let ab ← pyGet index "autoBuild"
    let stn ← getattrName (← pyGet index "state")
    pure (.vector (mkVectorIndex nm .PUCK f (MetricType.fromName mtn)
      (some (.puck ⟨cc, fc⟩)) ab abp (IndexState.fromName stn)))
  else if jsonEqStr it IndexType.SECONDARY_INDEX.value then do
    let nm ← pyGet index "indexName"
    let f ← pyGet index "field"
    pure (.secondary ⟨nm, f⟩)
  else if jsonEqStr it IndexType.INVERTED_INDEX.value then do
    let nm ← pyGet index "indexName"
    let fs ← pyGet index "fields"
    let pd ← pyGetObj (← pyGet index "params")
    let an ← getattrName (← pyGet pd "analyzer")
    let pm ← getattrName (← pyGet pd "parseMode")
    pure (.inverted ⟨nm, fs, ⟨some an, some pm⟩⟩)
  else
    .error (.clientError ("not supported index type:" ++ jsonTagStr it))

theorem exbind_ok {ε α β : Type} (a : α) (f : α → Except ε β) :
    ((Except.ok a : Except ε α) >>= f) = f a := rfl

set_option maxHeartbeats 1600000

/-- C2: `describe_index` dispatches on the server-reported `indexType`
tag: `HNSW`, `HNSWPQ`, `FLAT` and `PUCK` payloads reconstruct a
`VectorIndex` carrying that algorithm's params, the secondary tag yields
a `SecondaryIndex`, the inverted tag yields an `InvertedIndex` with its
analyzer params, and any tag outside this set raises a `ClientError`. -/
theorem describe_index_dispatch (index : List (String × Json))
    (abp : Option AutoBuildPolicyU)
    (habp : decodeAutoBuildPolicy index = .ok abp) :
    (∀ t, dictLookup index "indexType" = some (.str t) →
      t ∉ ["HNSW", "HNSWPQ", "FLAT", "PUCK", "SECONDARY", "INVERTED"] →
      ∃ m, describe_index_decode index = .error (.clientError m))
    ∧ (∀ nm f mt p mv ev ab st,
      dictLookup index "indexType" = some (.str "HNSW") →
      dictLookup index "indexName" = some nm →
      dictLookup index "field" = some f →
      dictLookup index "metricType" = some (.str mt) →
      dictLookup index "params" = some (.obj p) →
      dictLookup p "M" = some mv →
      dictLookup p "efConstruction" = some ev →
      dictLookup index "autoBuild" = some ab →
      dictLookup index "state" = some (.str st) →
      describe_index_decode index
        = .ok (.vector (mkVectorIndex nm .HNSW f (MetricType.fromName mt)
            (some (.hnsw ⟨mv, ev⟩)) ab abp (IndexState.fromName st))))
    ∧ (∀ nm f mt p mv ev nsq sr ab st,
      dictLookup index "indexType" = some (.str "HNSWPQ") →
      dictLookup index "indexName" = some nm →
      dictLookup index "field" = some f →
      dictLookup index "metricType" = some (.str mt) →
      dictLookup index "params" = some (.obj p) →
      dictLookup p "M" = some mv →
      dictLookup p "efConstruction" = some ev →
      dictLookup p "NSQ" = some nsq →
      dictLookup p "sampleRate" = some sr →
      dictLookup index "autoBuild" = some ab →
      dictLookup index "state" = some (.str st) →
      describe_index_decode index
        = .ok (.vector (mkVectorIndex nm .HNSWPQ f (MetricType.fromName mt)
            (some (.hnswpq ⟨mv, ev, nsq, sr⟩)) ab abp
            (IndexState.fromName st))))
    ∧ (∀ nm f mt ab st,
      dictLookup index "indexType" = some (.str "FLAT") →
      dictLookup index "indexName" = some nm →
      dictLookup index "field" = some f →
      dictLookup index "metricType" = some (.str mt) →
      dictLookup index "autoBuild" = some ab →
      dictLookup index "state" = some (.str st) →
      describe_index_decode index
        = .ok (.vector (mkVectorIndex nm .FLAT f (MetricType.fromName mt)
            none ab abp (IndexState.fromName st))))
    ∧ (∀ nm f mt p cc fc ab st,
      dictLookup index "indexType" = some (.str "PUCK") →
      dictLookup index "indexName" = some nm →
      dictLookup index "field" = some f →
      dictLookup index "metricType" = some (.str mt) →
      dictLookup index "params" = some (.obj p) →
      dictLookup p "coarseClusterCount" = some cc →
      dictLookup p "fineClusterCount" = some fc →
      dictLookup index "autoBuild" = some ab →
      dictLookup index "state" = some (.str st) →
      describe_index_decode index
        = .ok (.vector (mkVectorIndex nm .PUCK f (MetricType.fromName mt)
            (some (.puck ⟨cc, fc⟩)) ab abp (IndexState.fromName st))))
    ∧ (∀ nm f,
      dictLookup index "indexType" = some (.str "SECONDARY") →
      dictLookup index "indexName" = some nm →
      dictLookup index "field" = some f →
      describe_index_decode index = .ok (.secondary ⟨nm, f⟩))
    ∧ (∀ nm fs p an pm,
      dictLookup index "indexType" = some (.str "INVERTED") →
      dictLookup index "indexName" = some nm →
      dictLookup index "fields" = some fs →
      dictLookup index "params" = some (.obj p) →
      dictLookup p "analyzer" = some (.str an) →
      dictLookup p "parseMode" = some (.str pm) →
      describe_index_decode index
        = .ok (.inverted ⟨nm, fs, ⟨some an, some pm⟩⟩)) := by
  refine ⟨?_, ?_, ?_, ?_, ?_, ?_, ?_⟩
  · intro t hIT ht
    have h1 : ¬t = "HNSW" := fun he => ht (by simp [he])
    have h2 : ¬t = "HNSWPQ" := fun he => ht (by simp [he])
    have h3 : ¬t = "FLAT" := fun he => ht (by simp [he])
    have h4 : ¬t = "PUCK" := fun he => ht (by simp [he])
    have h5 : ¬t = "SECONDARY" := fun he => ht (by simp [he])
    have h6 : ¬t = "INVERTED" := fun he => ht (by simp [he])
    refine ⟨"not supported index type:" ++ t, ?_⟩
    simp only [describe_index_decode]
    rw [habp]
    simp [pyGet, hIT, jsonEqStr, IndexType.value, jsonTagStr, exbind_ok,
      h1, h2, h3, h4, h5, h6]
  · intro nm f mt p mv ev ab st hIT hNM hF hMT hP hM hE hAB hST
    simp only [describe_index_decode]
    rw [habp]
    simp [pyGet, pyGetObj, getattrName, jsonEqStr, IndexType.value,
      exbind_ok, hIT, hNM, hF, hMT, hP, hM, hE, hAB, hST]
  · intro nm f mt p mv ev nsq sr ab st hIT hNM hF hMT hP hM hE hN hS hAB hST
    simp only [describe_index_decode]
    rw [habp]
    simp [pyGet, pyGetObj, getattrName, jsonEqStr, IndexType.value,
      exbind_ok, hIT, hNM, hF, hMT, hP, hM, hE, hN, hS, hAB, hST]
  · intro nm f mt ab st hIT hNM hF hMT hAB hST
    simp only [describe_index_decode]
    rw [habp]
    simp [pyGet, pyGetObj, getattrName, jsonEqStr, IndexType.value,
      exbind_ok, hIT, hNM, hF, hMT, hAB, hST]
  · intro nm f mt p cc fc ab st hIT hNM hF hMT hP hC hFC hAB hST
    simp only [describe_index_decode]
    rw [habp]
    simp [pyGet, pyGetObj, getattrName, jsonEqStr, IndexType.value,
      exbind_ok, hIT, hNM, hF, hMT, hP, hC, hFC, hAB, hST]
  · intro nm f hIT hNM hF
    simp only [describe_index_decode]
    rw [habp]
    simp [pyGet, jsonEqStr, IndexType.value, exbind_ok, hIT, hNM, hF]
  · intro nm fs p an pm hIT hNM hFS hP hA hPM
    simp only [describe_index_decode]
    rw [habp]
    simp [pyGet, pyGetObj, getattrName, jsonEqStr, IndexType.value,
      exbind_ok, hIT, hNM, hFS, hP, hA, hPM]

/-- A concrete HNSW `describe_index` payload. -/
def idxPayloadW : List (String × Json) :=
  [("indexName", .str "vi"), ("indexType", .str "HNSW"),
   ("field", .str "vec"), ("metricType", .str "L2"),
   ("params", .obj [("M", .num 16), ("efConstruction", .num 200)]),
   ("autoBuild", .bool false), ("state", .str "NORMAL")]

/-- A payload with an unknown index-type tag. -/
def idxPayloadBad : List (String × Json) := [("indexType", .str "WEIRD")]

/-- Witness for C2: the HNSW arm and the unknown-tag arm at concrete
payloads. -/
theorem describe_index_dispatch_witness :
    describe_index_decode idxPayloadW
      = .ok (.vector (mkVectorIndex (.str "vi") .HNSW (.str "vec")
          (MetricType.fromName "L2") (some (.hnsw ⟨.num 16, .num 200⟩))
          (.bool false) none (IndexState.fromName "NORMAL")))
    ∧ ∃ m, describe_index_decode idxPayloadBad = .error (.clientError m) :=
  ⟨(describe_index_dispatch idxPayloadW none rfl).2.1 (.str "vi")
      (.str "vec") "L2" [("M", .num 16), ("efConstruction", .num 200)]
      (.num 16) (.num 200) (.bool false) "NORMAL"
      rfl rfl rfl rfl rfl rfl rfl rfl rfl,
   (describe_index_dispatch idxPayloadBad none rfl).1 "WEIRD" rfl (by decide)⟩

end Pymochow
